import Mathlib

/-!
Verification of the OR1ON / Genesis10000 audit-trail subsystem.

Shallow embedding of `src/audit-trail/audit_system.py` (class `AuditTrail`)
and `src/audit-chain/verify-chain.py` (class `AuditChainVerifier`).

Modelling conventions:
* SHA-256 over the canonical JSON encoding used by `_compute_chain_hash`
  is modelled by the free constructor `HashVal.sha256`: the Python code
  builds a dict with keys `event_id`, `timestamp`, `event_type`,
  `description` and, only when a previous index is supplied, `prev_hash`,
  serialises it with `json.dumps(..., sort_keys=True)` and hashes it.
  That serialisation is injective on this data (flat dict of string keys),
  and the key-absent / key-null / key-string cases give distinct strings,
  so the free term model `prev : Option (Option HashVal)` is faithful up
  to SHA-256 collisions: `none` is "prev_hash key omitted", `some none`
  is `"prev_hash": null`, `some (some h)` is a real previous digest.
* Wall-clock timestamps (`datetime.utcnow().isoformat()`) and the
  generated event ids are environment inputs: they are passed in as
  explicit string parameters.
* Python dicts of strings are `List (String × String)` with first-match
  lookup (a dict has unique keys, so this is faithful).
-/

/-- Free model of `hashlib.sha256(json.dumps(entry_data, sort_keys=True))`
as used by `AuditTrail._compute_chain_hash`. The four string components
are the four always-present keys of `entry_data`; the three constructors
record whether the `prev_hash` key was absent, present with value `null`,
or present with a previous digest. -/
inductive HashVal : Type where
  | sha256Absent (event_id timestamp event_type description : String)
  | sha256Null (event_id timestamp event_type description : String)
  | sha256Prev (event_id timestamp event_type description : String)
      (prev : HashVal)
deriving DecidableEq

/-- Digest of an `entry_data` dict whose optional `prev_hash` key is
given as `Option (Option HashVal)`: `none` when the key is omitted,
`some none` for `"prev_hash": null`, `some (some h)` for a real digest. -/
def mkHash (event_id timestamp event_type description : String) :
    Option (Option HashVal) → HashVal
  | none => .sha256Absent event_id timestamp event_type description
  | some none => .sha256Null event_id timestamp event_type description
  | some (some h) => .sha256Prev event_id timestamp event_type description h

/-- Enum `AuditEventType` from `audit_system.py`. -/
inductive AuditEventType : Type where
  | SYSTEM_INIT | KERNEL_OPERATION | ETHICAL_DECISION | AI_PROCESSING
  | MEMORY_ACCESS | SENTIENT_ACTIVITY | PROOF_VERIFICATION | SECURITY_EVENT
  | DATA_ACCESS | CONFIGURATION_CHANGE
deriving DecidableEq

/-- String value of each `AuditEventType` member. -/
def AuditEventType.value : AuditEventType → String
  | .SYSTEM_INIT => "system_initialization"
  | .KERNEL_OPERATION => "kernel_operation"
  | .ETHICAL_DECISION => "ethical_decision"
  | .AI_PROCESSING => "ai_processing"
  | .MEMORY_ACCESS => "memory_access"
  | .SENTIENT_ACTIVITY => "sentient_activity"
  | .PROOF_VERIFICATION => "proof_verification"
  | .SECURITY_EVENT => "security_event"
  | .DATA_ACCESS => "data_access"
  | .CONFIGURATION_CHANGE => "configuration_change"

/-- The audit-entry dict built by `AuditTrail.log_event`. `chain_hash`
is `none` while the entry is being built (Python `None`) and `some h`
once assigned. -/
structure AuditEntry : Type where
  event_id : String
  timestamp : String
  event_type : String
  description : String
  actor : String
  metadata : List (String × String)
  sensitivity : String
  chain_hash : Option HashVal
deriving DecidableEq

/-- Element of `self.chain_integrity` (see `_update_integrity_chain`). -/
structure ChainIntegrityEntry : Type where
  event_id : String
  timestamp : String
  hash : HashVal
deriving DecidableEq

/-- State of an `AuditTrail` object. `event_index` maps an event-type
value string to the list of event ids logged under it. -/
structure AuditTrail : Type where
  version : String
  audit_log : List AuditEntry
  event_index : List (String × List String)
  chain_integrity : List ChainIntegrityEntry
  public_audit_enabled : Bool
deriving DecidableEq

/-- `AuditTrail.__init__`. -/
def AuditTrail.init : AuditTrail :=
  { version := "1.0.0"
    audit_log := []
    event_index := []
    chain_integrity := []
    public_audit_enabled := true }

/-- `AuditTrail._compute_chain_hash(entry, prev_index)`. The entry dict
contributes its four identifying fields; when `prev_index is not None and
prev_index >= 0` (here: `some pi`, indices already natural) the stored
`chain_hash` of `audit_log[prev_index]` is added under key `prev_hash`.
`.get("chain_hash", "")` returns the stored value, which for appended
entries is always a real hash; a `none` stored value would serialise as
`null` (`some none` in the model). -/
def computeChainHash (log : List AuditEntry) (entry : AuditEntry)
    (prev_index : Option Nat) : HashVal :=
  let prev : Option (Option HashVal) :=
    match prev_index with
    | none => none
    | some pi =>
      match log.get? pi with
      | some prevEntry => some prevEntry.chain_hash
      | none => none
  mkHash entry.event_id entry.timestamp entry.event_type
    entry.description prev

/-- Arguments of one `log_event` call, together with the
environment-supplied event id and timestamp generated during the call. -/
structure LogCall : Type where
  event_id : String
  timestamp : String
  event_type : AuditEventType
  description : String
  actor : String
  metadata : Option (List (String × String))
  sensitivity : String
deriving DecidableEq

/-- `AuditTrail._index_event`. -/
def indexEvent (idx : List (String × List String)) (typeKey event_id : String) :
    List (String × List String) :=
  match idx.lookup typeKey with
  | some ids => (typeKey, ids ++ [event_id]) :: idx.filter (fun p => p.1 ≠ typeKey)
  | none => (typeKey, [event_id]) :: idx

/-- `AuditTrail.log_event`. Builds the entry dict with `chain_hash = None`,
then assigns `self._compute_chain_hash(audit_entry)` — note the source
calls it WITHOUT a `prev_index` argument, so the default `None` applies
and the previous entry's hash is never included — appends the entry,
indexes it and extends the integrity chain. -/
def log_event (t : AuditTrail) (c : LogCall) : AuditTrail :=
  let entry0 : AuditEntry :=
    { event_id := c.event_id
      timestamp := c.timestamp
      event_type := c.event_type.value
      description := c.description
      actor := c.actor
      metadata := c.metadata.getD []
      sensitivity := c.sensitivity
      chain_hash := none }
  let h := computeChainHash t.audit_log entry0 none
  let entry := { entry0 with chain_hash := some h }
  { t with
    audit_log := t.audit_log ++ [entry]
    event_index := indexEvent t.event_index c.event_type.value c.event_id
    chain_integrity := t.chain_integrity ++
      [{ event_id := c.event_id, timestamp := c.timestamp, hash := h }] }

/-- A trail built by a sequence of `log_event` calls on a fresh
`AuditTrail()`. -/
def buildTrail (calls : List LogCall) : AuditTrail :=
  calls.foldl log_event AuditTrail.init

/-- One element of the `issues` list of `verify_integrity`. -/
structure Issue : Type where
  event_id : String
  issue : String
deriving DecidableEq

/-- Return value of `AuditTrail.verify_integrity`. -/
structure Verification : Type where
  timestamp : String
  total_events : Nat
  integrity_verified : Bool
  issues : List Issue
deriving DecidableEq

/-- Hash that `verify_integrity` recomputes for the entry at index `i`:
`self._compute_chain_hash(entry, i - 1 if i > 0 else None)`. -/
def expectedHash (log : List AuditEntry) (i : Nat) (entry : AuditEntry) : HashVal :=
  computeChainHash log entry (if i > 0 then some (i - 1) else none)

/-- Loop body of `verify_integrity`: on a chain-hash mismatch the verdict
is cleared and an issue is appended. -/
def verifyStep (log : List AuditEntry) (v : Verification)
    (ie : Nat × AuditEntry) : Verification :=
  if ie.2.chain_hash ≠ some (expectedHash log ie.1 ie.2) then
    { v with
      integrity_verified := false
      issues := v.issues ++ [{ event_id := ie.2.event_id, issue := "Chain hash mismatch" }] }
  else v

/-- `AuditTrail.verify_integrity`, with the report timestamp supplied as
the parameter `now`. -/
def verify_integrity (t : AuditTrail) (now : String) : Verification :=
  (t.audit_log.enum).foldl (verifyStep t.audit_log)
    { timestamp := now
      total_events := t.audit_log.length
      integrity_verified := true
      issues := [] }

/-- `AuditTrail.query_events`. The source guards every block with Python
truthiness: `if filters:` is False for both `None` and the empty dict
(modelled by `none` / `some []`; an empty dict makes every lookup fail,
so the block is a no-op either way and no separate emptiness test is
needed), and `if start_time:` / `if end_time:` are False for `None` AND
for the empty string — so a `some ""` time bound SKIPS its filter, which
is modelled by the explicit `= ""` tests below. -/
def query_events (t : AuditTrail) (filters : Option (List (String × String)))
    (start_time end_time : Option String) : List AuditEntry :=
  let results := t.audit_log
  let results :=
    match filters with
    | none => results
    | some fs =>
      let results :=
        match fs.lookup "event_type" with
        | some v => results.filter (fun e => e.event_type == v)
        | none => results
      let results :=
        match fs.lookup "actor" with
        | some v => results.filter (fun e => e.actor == v)
        | none => results
      match fs.lookup "sensitivity" with
      | some v => results.filter (fun e => e.sensitivity == v)
      | none => results
  let results :=
    match start_time with
    | some st =>
      if st = "" then results
      else results.filter (fun e => decide (st ≤ e.timestamp))
    | none => results
  match end_time with
  | some et =>
    if et = "" then results
    else results.filter (fun e => decide (e.timestamp ≤ et))
  | none => results

/-- Public projection of an entry as built inside
`export_public_audit_data`: only these five fields are copied. -/
structure PublicEvent : Type where
  event_id : String
  timestamp : String
  event_type : String
  description : String
  actor : String
deriving DecidableEq

/-- Return value of `AuditTrail.export_public_audit_data`. -/
structure PublicExport : Type where
  version : String
  export_timestamp : String
  total_public_events : Nat
  events : List PublicEvent
  integrity_status : Verification
deriving DecidableEq

/-- Field projection used by the comprehension in
`export_public_audit_data`. -/
def publicProjection (e : AuditEntry) : PublicEvent :=
  { event_id := e.event_id
    timestamp := e.timestamp
    event_type := e.event_type
    description := e.description
    actor := e.actor }

/-- `AuditTrail.export_public_audit_data`, with the export timestamp
supplied as `now` (it is also passed through to `verify_integrity`). -/
def export_public_audit_data (t : AuditTrail) (now : String) : PublicExport :=
  let public_events :=
    (t.audit_log.filter (fun e => e.sensitivity == "public")).map publicProjection
  { version := t.version
    export_timestamp := now
    total_public_events := public_events.length
    events := public_events
    integrity_status := verify_integrity t now }

/-- Return value of `AuditTrail.get_statistics`. -/
structure Statistics : Type where
  total_events : Nat
  event_types : List (String × Nat)
  public_events : Nat
  chain_length : Nat
  oldest_event : Option String
  newest_event : Option String
deriving DecidableEq

/-- Counting loop of `get_statistics`:
`event_types[t] = event_types.get(t, 0) + 1`. -/
def bumpCount (m : List (String × Nat)) (key : String) : List (String × Nat) :=
  match m.lookup key with
  | some n => (key, n + 1) :: m.filter (fun p => p.1 ≠ key)
  | none => (key, 1) :: m

/-- `AuditTrail.get_statistics`. The `[0]` / `[-1]` indexing is guarded
by `if self.audit_log` in the source, modelled by `head?` / `getLast?`. -/
def get_statistics (t : AuditTrail) : Statistics :=
  let event_types := t.audit_log.foldl (fun m e => bumpCount m e.event_type) []
  { total_events := t.audit_log.length
    event_types := event_types
    public_events := (t.audit_log.filter (fun e => e.sensitivity == "public")).length
    chain_length := t.chain_integrity.length
    oldest_event := t.audit_log.head?.map (fun e => e.timestamp)
    newest_event := t.audit_log.getLast?.map (fun e => e.timestamp) }

/-!
Shallow embedding of `src/audit-chain/verify-chain.py`
(`AuditChainVerifier`). Its expected input is a JSON file whose
`audit_log` object has `chain_id`, `genesis_timestamp`, `entries` and
`chain_status`; every entry carries `entry_id`, `timestamp`,
`event_type`, `hash` and `previous_hash` as plain strings. The tool only
compares the stored string fields; it never recomputes a digest from an
entry's content (its own module docstring states that cryptographic hash
computation is left to production implementations).
-/

/-- Entry of the serialized export as read by `verify_chain`. -/
structure VerifierEntry : Type where
  entry_id : String
  timestamp : String
  event_type : String
  hash : String
  previous_hash : String
deriving DecidableEq

/-- The `chain_status` object of the export. -/
structure ChainStatus : Type where
  active : Bool
  verified : Bool
  public : Bool
deriving DecidableEq

/-- The `audit_log` object of the export file. -/
structure VerifierAuditLog : Type where
  chain_id : String
  genesis_timestamp : String
  entries : List VerifierEntry
  chain_status : ChainStatus
deriving DecidableEq

/-- Per-entry check of the `verify_chain` loop: for `i > 0` the stored
`previous_hash` must equal the stored `hash` of `entries[i-1]`; index 0
is printed as "Genesis block" and always passes. -/
def verifyChainLink (entries : List VerifierEntry) (i : Nat)
    (entry : VerifierEntry) : Bool :=
  if i > 0 then
    match entries.get? (i - 1) with
    | some prevEntry => entry.previous_hash == prevEntry.hash
    | none => true
  else
    true

/-- `AuditChainVerifier.verify_chain`: the first component is the
sequence of per-entry verification lines (pass/fail), the second the
overall verdict returned by the method (`verified`). -/
def verify_chain (log : VerifierAuditLog) : List Bool × Bool :=
  let results := (log.entries.enum).map
    (fun ie => verifyChainLink log.entries ie.1 ie.2)
  (results, results.all id)

/-- Raw JSON view of one element of `audit_log['entries']` as
`verify_chain` sees it after loading: each key the loop subscripts may
be present (`some`) or missing (`none`); subscripting a missing key is
an uncaught `KeyError`. -/
structure RawVerifierEntry : Type where
  entry_id : Option String
  timestamp : Option String
  event_type : Option String
  hash : Option String
  previous_hash : Option String
deriving DecidableEq

/-- Raw JSON view of the `chain_status` object: the three keys the
status printout subscripts may each be missing. -/
structure RawChainStatus : Type where
  active : Option Bool
  verified : Option Bool
  public : Option Bool
deriving DecidableEq

/-- Raw JSON view of the `audit_log` object exactly as `load_audit_log`
hands it over: loading only checks that the top-level `audit_log` key
exists, so every key `verify_chain` later subscripts — `entries`,
`chain_id`, `genesis_timestamp`, `chain_status` and the per-entry and
per-status keys — may still be missing. -/
structure RawVerifierAuditLog : Type where
  chain_id : Option String
  genesis_timestamp : Option String
  entries : Option (List RawVerifierEntry)
  chain_status : Option RawChainStatus
deriving DecidableEq

/-- Raw view of a well-formed export: every subscripted key present. -/
def toRawEntry (e : VerifierEntry) : RawVerifierEntry :=
  { entry_id := some e.entry_id
    timestamp := some e.timestamp
    event_type := some e.event_type
    hash := some e.hash
    previous_hash := some e.previous_hash }

/-- Raw view of a well-formed `audit_log` object. -/
def toRawLog (log : VerifierAuditLog) : RawVerifierAuditLog :=
  { chain_id := some log.chain_id
    genesis_timestamp := some log.genesis_timestamp
    entries := some (log.entries.map toRawEntry)
    chain_status := some
      { active := some log.chain_status.active
        verified := some log.chain_status.verified
        public := some log.chain_status.public } }

/-- The entry loop of `verify_chain` over raw entries, in the source's
access order: `entry['entry_id']`, `entry['hash']`,
`entry['previous_hash']`, then the `timestamp` and `event_type` prints,
then for `i > 0` the fresh subscript `entries[i-1]['hash']` for the link
comparison. A missing key raises (`.error`), aborting the loop; on
success the per-entry pass/fail lines are returned. -/
def verifyEntriesRun (entries : List RawVerifierEntry) :
    Nat → List RawVerifierEntry → Except String (List Bool)
  | _, [] => .ok []
  | i, e :: rest =>
    match e.entry_id with
    | none => .error "KeyError: entry_id"
    | some _ =>
      match e.hash with
      | none => .error "KeyError: hash"
      | some _ =>
        match e.previous_hash with
        | none => .error "KeyError: previous_hash"
        | some previous_hash =>
          match e.timestamp with
          | none => .error "KeyError: timestamp"
          | some _ =>
            match e.event_type with
            | none => .error "KeyError: event_type"
            | some _ =>
              match (if i > 0 then
                  match entries.get? (i - 1) with
                  | some prevEntry =>
                    match prevEntry.hash with
                    | some prevHash => Except.ok (previous_hash == prevHash)
                    | none => Except.error "KeyError: hash"
                  | none => Except.ok true
                else Except.ok true : Except String Bool) with
              | .error msg => .error msg
              | .ok r =>
                match verifyEntriesRun entries (i + 1) rest with
                | .error msg => .error msg
                | .ok rs => .ok (r :: rs)

/-- `AuditChainVerifier.verify_chain` on the raw loaded object, with
every dict subscript modelled: `audit_log['entries']`, the
`chain_id` / `genesis_timestamp` header prints, the entry loop, then
`audit_log['chain_status']` and its `active` / `verified` / `public`
prints — any missing key is an uncaught `KeyError` (`.error`). On
success it returns the per-entry lines and the verdict. -/
def verify_chain_run (log : RawVerifierAuditLog) :
    Except String (List Bool × Bool) :=
  match log.entries with
  | none => .error "KeyError: entries"
  | some entries =>
    match log.chain_id with
    | none => .error "KeyError: chain_id"
    | some _ =>
      match log.genesis_timestamp with
      | none => .error "KeyError: genesis_timestamp"
      | some _ =>
        match verifyEntriesRun entries 0 entries with
        | .error msg => .error msg
        | .ok results =>
          match log.chain_status with
          | none => .error "KeyError: chain_status"
          | some status =>
            match status.active with
            | none => .error "KeyError: active"
            | some _ =>
              match status.verified with
              | none => .error "KeyError: verified"
              | some _ =>
                match status.public with
                | none => .error "KeyError: public"
                | some _ => .ok (results, results.all id)

/-- Outcome of opening and parsing the audit-log file in
`load_audit_log`, as seen at the I/O boundary: the three `except`ed
failure modes, or the raw `audit_log` object (whose inner structure is
NOT validated by loading). -/
inductive LoadOutcome : Type where
  | fileNotFound
  | invalidJson
  | missingAuditLogKey
  | ok (log : RawVerifierAuditLog)
deriving DecidableEq

/-- `AuditChainVerifier.load_audit_log`: each `except` branch prints a
message and re-raises, so the exception escapes the constructor; only
the presence of the top-level `audit_log` key is checked. -/
def load_audit_log (fs : String → LoadOutcome) (path : String) :
    Except String RawVerifierAuditLog :=
  match fs path with
  | .fileNotFound => .error "FileNotFoundError"
  | .invalidJson => .error "json.JSONDecodeError"
  | .missingAuditLogKey => .error "KeyError"
  | .ok log => .ok log

/-- The `__main__` block of `verify-chain.py`: it constructs
`AuditChainVerifier("audit-log.json")` — the path is hard-coded and the
command-line arguments are never read — then calls `verify_chain()` and
DISCARDS its Boolean return value. An uncaught exception — from loading
OR from a missing key inside `verify_chain` — makes the interpreter exit
with code 1; otherwise the script falls off the end and exits with code
0 regardless of the verification verdict. -/
def mainExitCode (fs : String → LoadOutcome) (argv : List String) : Nat :=
  match load_audit_log fs "audit-log.json" with
  | .error _ => 1
  | .ok log =>
    match verify_chain_run log with
    | .error _ => 1
    | .ok _ => 0

/-!
Spec-side definitions, written from the specification's words, for the
refinement-style claims about querying and chain linkage.
-/

/-- Query predicate as the spec describes it: `filters` may constrain
`event_type`, `actor` and/or `sensitivity` (exact match on each supplied
field, omitted fields unconstrained); time bounds are inclusive
comparisons against `timestamp`. -/
def specQueryMatch (filters : Option (List (String × String)))
    (start_time end_time : Option String) (e : AuditEntry) : Bool :=
  (match filters with
   | none => true
   | some fs =>
     (match fs.lookup "event_type" with
      | some v => e.event_type == v
      | none => true) &&
     (match fs.lookup "actor" with
      | some v => e.actor == v
      | none => true) &&
     (match fs.lookup "sensitivity" with
      | some v => e.sensitivity == v
      | none => true)) &&
  (match start_time with
   | some st => decide (st ≤ e.timestamp)
   | none => true) &&
  (match end_time with
   | some et => decide (e.timestamp ≤ et)
   | none => true)

/-- Query predicate amended to the program's truthiness behavior: as
`specQueryMatch`, except that an EMPTY-STRING time bound (falsy in
Python, so its filter block is skipped) constrains nothing instead of
being an inclusive comparison. -/
def specQueryMatchPy (filters : Option (List (String × String)))
    (start_time end_time : Option String) (e : AuditEntry) : Bool :=
  (match filters with
   | none => true
   | some fs =>
     (match fs.lookup "event_type" with
      | some v => e.event_type == v
      | none => true) &&
     (match fs.lookup "actor" with
      | some v => e.actor == v
      | none => true) &&
     (match fs.lookup "sensitivity" with
      | some v => e.sensitivity == v
      | none => true)) &&
  (match start_time with
   | some st => if st = "" then true else decide (st ≤ e.timestamp)
   | none => true) &&
  (match end_time with
   | some et => if et = "" then true else decide (e.timestamp ≤ et)
   | none => true)

/-- Chain linkage as the spec describes the verifier's check: every
non-genesis entry's stored `previous_hash` equals the stored `hash` of
its predecessor. -/
def specChainLinked (entries : List VerifierEntry) : Prop :=
  ∀ i : Nat, 0 < i → ∀ e p : VerifierEntry, entries.get? i = some e →
    entries.get? (i - 1) = some p → e.previous_hash = p.hash

/-!
Helper definitions and lemmas about the embedded operations.
-/

/-- Entry appended by a single `log_event` call: because the source calls
`_compute_chain_hash` without a previous index, the stored hash is always
the prev-less digest of the entry's own four identifying fields. -/
def callEntry (c : LogCall) : AuditEntry :=
  { event_id := c.event_id
    timestamp := c.timestamp
    event_type := c.event_type.value
    description := c.description
    actor := c.actor
    metadata := c.metadata.getD []
    sensitivity := c.sensitivity
    chain_hash := some (.sha256Absent c.event_id c.timestamp
      c.event_type.value c.description) }

theorem foldl_log_event_audit_log :
    ∀ (calls : List LogCall) (t : AuditTrail),
      (calls.foldl log_event t).audit_log = t.audit_log ++ calls.map callEntry
  | [], t => by simp
  | c :: cs, t => by
    rw [List.foldl_cons, foldl_log_event_audit_log cs]
    simp [log_event, computeChainHash, mkHash, callEntry]

theorem buildTrail_audit_log (calls : List LogCall) :
    (buildTrail calls).audit_log = calls.map callEntry := by
  simp [buildTrail, foldl_log_event_audit_log, AuditTrail.init]

/-- Issue recorded for a mismatching entry. -/
def issueOf (e : AuditEntry) : Issue :=
  { event_id := e.event_id, issue := "Chain hash mismatch" }

/-- Issues produced by the verification walk over the suffix `l` of the
log, starting at absolute index `i`. -/
def issuesFrom (log : List AuditEntry) : Nat → List AuditEntry → List Issue
  | _, [] => []
  | i, e :: rest =>
    (if e.chain_hash ≠ some (expectedHash log i e) then [issueOf e] else []) ++
      issuesFrom log (i + 1) rest

theorem foldl_verifyStep_enumFrom (log : List AuditEntry) :
    ∀ (l : List AuditEntry) (i : Nat) (v : Verification),
      (List.enumFrom i l).foldl (verifyStep log) v =
        { v with
          integrity_verified := v.integrity_verified && (issuesFrom log i l).isEmpty
          issues := v.issues ++ issuesFrom log i l }
  | [], i, v => by simp [issuesFrom]
  | e :: rest, i, v => by
    rw [show List.enumFrom i (e :: rest) = (i, e) :: List.enumFrom (i + 1) rest from rfl,
      List.foldl_cons, foldl_verifyStep_enumFrom log rest]
    by_cases h : e.chain_hash = some (expectedHash log i e)
    · simp [issuesFrom, verifyStep, h]
    · simp [issuesFrom, verifyStep, h, issueOf]

theorem verify_integrity_eq (t : AuditTrail) (now : String) :
    verify_integrity t now =
      { timestamp := now
        total_events := t.audit_log.length
        integrity_verified := (issuesFrom t.audit_log 0 t.audit_log).isEmpty
        issues := issuesFrom t.audit_log 0 t.audit_log } := by
  unfold verify_integrity
  rw [show t.audit_log.enum = List.enumFrom 0 t.audit_log from rfl,
    foldl_verifyStep_enumFrom]
  simp

theorem mem_issuesFrom (log : List AuditEntry) :
    ∀ (l : List AuditEntry) (i k : Nat) (e : AuditEntry),
      l.get? k = some e → e.chain_hash ≠ some (expectedHash log (i + k) e) →
      issueOf e ∈ issuesFrom log i l
  | [], _, k, e, h, _ => by simp at h
  | x :: rest, i, 0, e, h, hm => by
    rw [List.get?_cons_zero] at h
    injection h with h
    subst h
    rw [Nat.add_zero] at hm
    simp [issuesFrom, hm]
  | x :: rest, i, k + 1, e, h, hm => by
    rw [List.get?_cons_succ] at h
    have hm' : e.chain_hash ≠ some (expectedHash log ((i + 1) + k) e) := by
      rw [show (i + 1) + k = i + (k + 1) from by omega]; exact hm
    have := mem_issuesFrom log rest (i + 1) k e h hm'
    simp [issuesFrom]
    right
    exact this

theorem issuesFrom_eq_nil (log : List AuditEntry) :
    ∀ (l : List AuditEntry) (i : Nat),
      (∀ k e, l.get? k = some e → e.chain_hash = some (expectedHash log (i + k) e)) →
      issuesFrom log i l = []
  | [], _, _ => rfl
  | x :: rest, i, h => by
    have h0 : x.chain_hash = some (expectedHash log i x) := by
      have hx := h 0 x (by rw [List.get?_cons_zero])
      rw [Nat.add_zero] at hx
      exact hx
    have hrest : issuesFrom log (i + 1) rest = [] :=
      issuesFrom_eq_nil log rest (i + 1) (fun k e hk => by
        have := h (k + 1) e (by rw [List.get?_cons_succ]; exact hk)
        rw [show i + (k + 1) = (i + 1) + k from by omega] at this
        exact this)
    simp [issuesFrom, h0, hrest]

/-- In-place mutation of the stored entry dict at index `i` of the log
(the trail object is otherwise untouched). -/
def setEntry (t : AuditTrail) (i : Nat) (e : AuditEntry) : AuditTrail :=
  { t with audit_log := t.audit_log.set i e }

theorem buildTrail_entry_hash (calls : List LogCall) (i : Nat) (e : AuditEntry)
    (h : (buildTrail calls).audit_log.get? i = some e) :
    e.chain_hash =
      some (.sha256Absent e.event_id e.timestamp e.event_type e.description) := by
  rw [buildTrail_audit_log, List.get?_eq_getElem?, List.getElem?_map] at h
  cases hc : calls[i]? with
  | none => rw [hc] at h; simp at h
  | some c =>
    rw [hc] at h
    simp only [Option.map_some'] at h
    injection h with h
    subst h
    rfl

theorem computeChainHash_none (log : List AuditEntry) (e : AuditEntry) :
    computeChainHash log e none =
      mkHash e.event_id e.timestamp e.event_type e.description none := rfl

theorem computeChainHash_some (log : List AuditEntry) (e : AuditEntry) (j : Nat) :
    computeChainHash log e (some j) =
      mkHash e.event_id e.timestamp e.event_type e.description
        (match log.get? j with
         | some prevEntry => some prevEntry.chain_hash
         | none => none) := rfl

theorem expectedHash_shape (log : List AuditEntry) (i : Nat) (e : AuditEntry) :
    ∃ p : Option (Option HashVal),
      expectedHash log i e =
        mkHash e.event_id e.timestamp e.event_type e.description p := by
  unfold expectedHash
  cases hi : (if i > 0 then some (i - 1) else none : Option Nat) with
  | none => exact ⟨none, computeChainHash_none log e⟩
  | some j => exact ⟨_, computeChainHash_some log e j⟩

theorem mutated_entry_mismatch (log : List AuditEntry) (i : Nat) (e : AuditEntry)
    (a b c d : String)
    (hstore : e.chain_hash = some (.sha256Absent a b c d))
    (hdiff : (e.event_id, e.timestamp, e.event_type, e.description) ≠ (a, b, c, d)) :
    e.chain_hash ≠ some (expectedHash log i e) := by
  intro hc
  rw [hstore] at hc
  injection hc with hc
  obtain ⟨p, hp⟩ := expectedHash_shape log i e
  rw [hp] at hc
  match p with
  | none =>
    injection hc with h1 h2 h3 h4
    exact hdiff (by rw [h1, h2, h3, h4])
  | some none => exact HashVal.noConfusion hc
  | some (some h) => exact HashVal.noConfusion hc

theorem computeChainHash_congr (log log' : List AuditEntry) (e e' : AuditEntry)
    (pidx : Option Nat)
    (hid : e.event_id = e'.event_id) (hts : e.timestamp = e'.timestamp)
    (het : e.event_type = e'.event_type) (hd : e.description = e'.description)
    (hch : ∀ j, pidx = some j →
      (log.get? j).map AuditEntry.chain_hash = (log'.get? j).map AuditEntry.chain_hash) :
    computeChainHash log e pidx = computeChainHash log' e' pidx := by
  cases pidx with
  | none => rw [computeChainHash_none, computeChainHash_none, hid, hts, het, hd]
  | some j =>
    rw [computeChainHash_some, computeChainHash_some, hid, hts, het, hd]
    have hj := hch j rfl
    cases h1 : log.get? j with
    | none =>
      cases h2 : log'.get? j with
      | none => rfl
      | some b => rw [h1, h2] at hj; simp at hj
    | some a =>
      cases h2 : log'.get? j with
      | none => rw [h1, h2] at hj; simp at hj
      | some b =>
        rw [h1, h2] at hj
        simp only [Option.map_some'] at hj
        injection hj with hj
        simp only [hj]

theorem issuesFrom_congr (log log' : List AuditEntry) :
    ∀ (l l' : List AuditEntry) (i : Nat),
      l.length = l'.length →
      (∀ k e e', l.get? k = some e → l'.get? k = some e' →
        e.event_id = e'.event_id ∧
        ((e.chain_hash = some (expectedHash log (i + k) e)) ↔
         (e'.chain_hash = some (expectedHash log' (i + k) e')))) →
      issuesFrom log i l = issuesFrom log' i l'
  | [], [], _, _, _ => rfl
  | [], _ :: _, _, hlen, _ => by simp at hlen
  | _ :: _, [], _, hlen, _ => by simp at hlen
  | x :: rest, x' :: rest', i, hlen, h => by
    obtain ⟨hid, hiff⟩ := by
      have hx := h 0 x x' (by rw [List.get?_cons_zero]) (by rw [List.get?_cons_zero])
      rwa [Nat.add_zero] at hx
    have hrec := issuesFrom_congr log log' rest rest' (i + 1)
      (by simpa using hlen)
      (fun k e e' hk hk' => by
        have := h (k + 1) e e' (by rwa [List.get?_cons_succ]) (by rwa [List.get?_cons_succ])
        rwa [show i + (k + 1) = (i + 1) + k from by omega] at this)
    by_cases hc : x.chain_hash = some (expectedHash log i x)
    · have hc' : x'.chain_hash = some (expectedHash log' i x') := hiff.mp hc
      simp [issuesFrom, hc, hc', hrec]
    · have hc' : ¬x'.chain_hash = some (expectedHash log' i x') :=
        fun hcc => hc (hiff.mpr hcc)
      simp [issuesFrom, hc, hc', hrec, issueOf, hid]

theorem set_get?_map_chain (log : List AuditEntry) (i : Nat) (e e' : AuditEntry)
    (h : log.get? i = some e) (hch : e'.chain_hash = e.chain_hash) (j : Nat) :
    ((log.set i e').get? j).map AuditEntry.chain_hash =
      (log.get? j).map AuditEntry.chain_hash := by
  by_cases hij : i = j
  · subst hij
    obtain ⟨hlt, _⟩ := List.get?_eq_some.mp h
    rw [h]
    rw [List.get?_eq_getElem?]
    simp [hlt, hch]
  · rw [List.get?_eq_getElem?, List.get?_eq_getElem?, List.getElem?_set_ne hij]

theorem setEntry_flagged (calls : List LogCall) (i : Nat) (e e' : AuditEntry)
    (now : String)
    (h : (buildTrail calls).audit_log.get? i = some e)
    (hch : e'.chain_hash = e.chain_hash)
    (hdiff : (e'.event_id, e'.timestamp, e'.event_type, e'.description) ≠
      (e.event_id, e.timestamp, e.event_type, e.description)) :
    issueOf e' ∈ (verify_integrity (setEntry (buildTrail calls) i e') now).issues := by
  obtain ⟨hlt, _⟩ := List.get?_eq_some.mp h
  have hstore : e'.chain_hash =
      some (.sha256Absent e.event_id e.timestamp e.event_type e.description) := by
    rw [hch, buildTrail_entry_hash calls i e h]
  have hget : ((buildTrail calls).audit_log.set i e').get? i = some e' := by
    rw [List.get?_eq_getElem?]
    simp [hlt]
  have hmis := mutated_entry_mismatch ((buildTrail calls).audit_log.set i e') i e'
    e.event_id e.timestamp e.event_type e.description hstore hdiff
  have hmem := mem_issuesFrom ((buildTrail calls).audit_log.set i e')
    ((buildTrail calls).audit_log.set i e') 0 i e' hget (by rwa [Nat.zero_add])
  rw [verify_integrity_eq]
  exact hmem

theorem setEntry_unhashed_invisible (t : AuditTrail) (i : Nat) (e e' : AuditEntry)
    (now : String)
    (h : t.audit_log.get? i = some e)
    (hid : e'.event_id = e.event_id) (hts : e'.timestamp = e.timestamp)
    (het : e'.event_type = e.event_type) (hd : e'.description = e.description)
    (hch : e'.chain_hash = e.chain_hash) :
    verify_integrity (setEntry t i e') now = verify_integrity t now := by
  obtain ⟨hlt, _⟩ := List.get?_eq_some.mp h
  have hmap := set_get?_map_chain t.audit_log i e e' h hch
  have hiss : issuesFrom (t.audit_log.set i e') 0 (t.audit_log.set i e') =
      issuesFrom t.audit_log 0 t.audit_log := by
    apply issuesFrom_congr
    · exact List.length_set t.audit_log i e'
    · intro k e1 e2 hk1 hk2
      rw [Nat.zero_add]
      by_cases hik : i = k
      · subst hik
        have he1 : e1 = e' := by
          rw [List.get?_eq_getElem?] at hk1
          simp [hlt] at hk1
          exact hk1.symm
        have he2 : e2 = e := by rw [h] at hk2; injection hk2 with hk2; exact hk2.symm
        have hexp : expectedHash (t.audit_log.set i e') i e1 =
            expectedHash t.audit_log i e2 := by
          unfold expectedHash
          exact computeChainHash_congr _ _ _ _ _
            (by rw [he1, he2]; exact hid) (by rw [he1, he2]; exact hts)
            (by rw [he1, he2]; exact het) (by rw [he1, he2]; exact hd)
            (fun j _ => hmap j)
        constructor
        · rw [he1, he2]; exact hid
        · rw [hexp, he1, he2, hch]
      · have he12 : e1 = e2 := by
          rw [List.get?_eq_getElem?, List.getElem?_set_ne hik, ← List.get?_eq_getElem?,
            hk2] at hk1
          injection hk1 with hk1
          exact hk1.symm
        subst he12
        have hexp : expectedHash (t.audit_log.set i e') k e1 =
            expectedHash t.audit_log k e1 := by
          unfold expectedHash
          exact computeChainHash_congr _ _ _ _ _ rfl rfl rfl rfl (fun j _ => hmap j)
        exact ⟨rfl, by rw [hexp]⟩
  rw [verify_integrity_eq, verify_integrity_eq]
  simp only [setEntry, hiss, List.length_set]

theorem verify_chain_results_length (log : VerifierAuditLog) :
    (verify_chain log).1.length = log.entries.length := by
  simp [verify_chain]

theorem all_id_map {α : Type} (f : α → Bool) :
    ∀ l : List α, (l.map f).all id = l.all f
  | [] => rfl
  | x :: xs => by
    simp only [List.map_cons, List.all_cons, all_id_map f xs, id]

theorem verify_chain_link_iff (entries : List VerifierEntry) :
    ((entries.enum.map fun ie => verifyChainLink entries ie.1 ie.2).all id = true) ↔
      specChainLinked entries := by
  rw [all_id_map, List.all_eq_true]
  constructor
  · intro hall i hi e p hgete hgetp
    have hlt : i < entries.length := by
      by_contra hge
      rw [List.get?_eq_getElem?, List.getElem?_eq_none (by omega)] at hgete
      exact Option.noConfusion hgete
    have hmem : (i, entries.get ⟨i, hlt⟩) ∈ entries.enum := by
      rw [List.mem_enum_iff_get?]
      exact List.get?_eq_get hlt
    have hck := hall _ hmem
    have hee : entries.get ⟨i, hlt⟩ = e := by
      have := List.get?_eq_get hlt
      rw [hgete] at this
      injection this with this
      exact this.symm
    simp only [verifyChainLink, hee, if_pos hi, hgetp] at hck
    exact eq_of_beq hck
  · intro hlink ie hmem
    rw [List.mem_enum_iff_get?] at hmem
    show verifyChainLink entries ie.1 ie.2 = true
    unfold verifyChainLink
    by_cases hi : ie.1 > 0
    · rw [if_pos hi]
      cases hgetp : entries.get? (ie.1 - 1) with
      | none => rfl
      | some p =>
        have := hlink ie.1 hi ie.2 p hmem hgetp
        simp [this]
    · rw [if_neg hi]

theorem verify_chain_verdict (log : VerifierAuditLog) :
    ((verify_chain log).2 = true) ↔ specChainLinked log.entries := by
  unfold verify_chain
  exact verify_chain_link_iff log.entries

theorem verify_chain_genesis_passes (log : VerifierAuditLog) (e0 : VerifierEntry)
    (rest : List VerifierEntry) (h : log.entries = e0 :: rest) :
    (verify_chain log).1.head? = some true := by
  simp [verify_chain, h, verifyChainLink]

theorem if_skip_filter {α : Type} (c : Prop) [Decidable c] (l : List α)
    (p : α → Bool) :
    (if c then l else l.filter p) = l.filter (fun a => if c then true else p a) := by
  by_cases h : c <;> simp [h]

theorem query_events_eq_filter (t : AuditTrail)
    (fs : Option (List (String × String))) (st et : Option String) :
    query_events t fs st et = t.audit_log.filter (specQueryMatchPy fs st et) := by
  unfold query_events specQueryMatchPy
  rcases fs with _ | f
  · rcases st with _ | s <;> rcases et with _ | s' <;>
      (try simp only [if_skip_filter]) <;>
      (try simp only [List.filter_filter]) <;>
      first
        | (simp; done)
        | (refine List.filter_congr fun a _ => ?_
           simp [Bool.and_comm, Bool.and_left_comm, Bool.and_assoc])
  · rcases h1 : f.lookup "event_type" with _ | v1 <;>
    rcases h2 : f.lookup "actor" with _ | v2 <;>
    rcases h3 : f.lookup "sensitivity" with _ | v3 <;>
    rcases st with _ | s <;> rcases et with _ | s' <;>
      (try simp only [h1, h2, h3]) <;>
      (try simp only [if_skip_filter]) <;>
      (try simp only [List.filter_filter]) <;>
      first
        | (simp; done)
        | (refine List.filter_congr fun a _ => ?_
           simp [Bool.and_comm, Bool.and_left_comm, Bool.and_assoc])

theorem specQueryMatchPy_eq_spec (fs : Option (List (String × String)))
    (st et : Option String) (hst : st ≠ some "") (het : et ≠ some "")
    (e : AuditEntry) :
    specQueryMatchPy fs st et e = specQueryMatch fs st et e := by
  unfold specQueryMatchPy specQueryMatch
  rcases st with _ | s
  · rcases et with _ | s'
    · rfl
    · have h : ¬(s' = "") := fun h => het (by rw [h])
      simp only [if_neg h]
  · have hs : ¬(s = "") := fun h => hst (by rw [h])
    rcases et with _ | s'
    · simp only [if_neg hs]
    · have h : ¬(s' = "") := fun h => het (by rw [h])
      simp only [if_neg hs, if_neg h]

/-!
Claim theorems.
-/

/-- C1: the claim states that a log built by `log_event` alone (length at
least 1) always passes `verify_integrity` with no issues. The code
violates this for every log of length at least 2: `log_event` stores a
hash computed WITHOUT the previous entry's hash (it calls
`_compute_chain_hash` with the default `prev_index=None`), while
`verify_integrity` recomputes WITH it, so every non-genesis entry is
flagged. This theorem evaluates the code at the failing input: two
`log_event` calls on a fresh trail, nothing mutated, and verification
already reports `integrity_verified = False` with the second entry
flagged. -/
theorem c1_unmodified_two_event_log_fails_verification :
    (verify_integrity (buildTrail
      [{ event_id := "id0", timestamp := "t0", event_type := .SYSTEM_INIT,
         description := "boot", actor := "orion", metadata := none,
         sensitivity := "public" },
       { event_id := "id1", timestamp := "t1", event_type := .KERNEL_OPERATION,
         description := "op", actor := "orion", metadata := none,
         sensitivity := "public" }]) "now").integrity_verified = false ∧
    (verify_integrity (buildTrail
      [{ event_id := "id0", timestamp := "t0", event_type := .SYSTEM_INIT,
         description := "boot", actor := "orion", metadata := none,
         sensitivity := "public" },
       { event_id := "id1", timestamp := "t1", event_type := .KERNEL_OPERATION,
         description := "op", actor := "orion", metadata := none,
         sensitivity := "public" }]) "now").issues =
      [{ event_id := "id1", issue := "Chain hash mismatch" }] := by
  constructor <;> decide

/-- C2: the claim states that for `i > 0`, the stored `chain_hash` of
entry `i` was computed with entry `i-1`'s `chain_hash` as a digest input.
In the code `log_event` calls `_compute_chain_hash(audit_entry)` with the
default `prev_index=None`, so the stored hash of EVERY entry is the
prev-less digest (`HashVal.sha256Absent`, the constructor recording that
the `prev_hash` key was omitted), never a `sha256Prev` digest chaining to
the predecessor. Evaluated at the failing input (two calls): entry 1's
stored hash has no previous-hash input even though entry 0 has a hash. -/
theorem c2_second_entry_hash_computed_without_prev :
    ((buildTrail
      [{ event_id := "id0", timestamp := "t0", event_type := .SYSTEM_INIT,
         description := "boot", actor := "orion", metadata := none,
         sensitivity := "public" },
       { event_id := "id1", timestamp := "t1", event_type := .KERNEL_OPERATION,
         description := "op", actor := "orion", metadata := none,
         sensitivity := "public" }]).audit_log.get? 1).map
        AuditEntry.chain_hash =
      some (some (.sha256Absent "id1" "t1" "kernel_operation" "op")) ∧
    ((buildTrail
      [{ event_id := "id0", timestamp := "t0", event_type := .SYSTEM_INIT,
         description := "boot", actor := "orion", metadata := none,
         sensitivity := "public" },
       { event_id := "id1", timestamp := "t1", event_type := .KERNEL_OPERATION,
         description := "op", actor := "orion", metadata := none,
         sensitivity := "public" }]).audit_log.get? 0).map
        AuditEntry.chain_hash =
      some (some (.sha256Absent "id0" "t0" "system_initialization" "boot")) := by
  constructor <;> decide

/-- C3 counterexample: the claim says mutating ANY single field of an
entry other than its own `chain_hash` makes `verify_integrity` flag that
entry. But `_compute_chain_hash` digests only `event_id`, `timestamp`,
`event_type` and `description`; here the `actor` of the only entry of a
correctly-appended one-event log is changed from "orion" to "mallory"
and verification still reports full integrity with an empty issue
list. -/
theorem c3_actor_mutation_undetected :
    (verify_integrity (setEntry (buildTrail
        [{ event_id := "id0", timestamp := "t0", event_type := .SYSTEM_INIT,
           description := "boot", actor := "orion", metadata := none,
           sensitivity := "public" }]) 0
      { event_id := "id0", timestamp := "t0",
        event_type := "system_initialization", description := "boot",
        actor := "mallory", metadata := [], sensitivity := "public",
        chain_hash := some (.sha256Absent "id0" "t0"
          "system_initialization" "boot") }) "now").integrity_verified = true ∧
    (verify_integrity (setEntry (buildTrail
        [{ event_id := "id0", timestamp := "t0", event_type := .SYSTEM_INIT,
           description := "boot", actor := "orion", metadata := none,
           sensitivity := "public" }]) 0
      { event_id := "id0", timestamp := "t0",
        event_type := "system_initialization", description := "boot",
        actor := "mallory", metadata := [], sensitivity := "public",
        chain_hash := some (.sha256Absent "id0" "t0"
          "system_initialization" "boot") }) "now").issues = [] ∧
    ((buildTrail
        [{ event_id := "id0", timestamp := "t0", event_type := .SYSTEM_INIT,
           description := "boot", actor := "orion", metadata := none,
           sensitivity := "public" }]).audit_log.get? 0).map
      AuditEntry.actor = some "orion" := by
  refine ⟨?_, ?_, ?_⟩ <;> decide

/-- C3 (amended): verify_integrity walks the whole sequence and reports
every entry whose stored hash differs from the recomputed one (part 1);
mutating an entry of a correctly-appended log in any of the four HASHED
fields (event_id, timestamp, event_type, description), keeping its stored
chain_hash, always gets that entry flagged (part 2); mutating only the
unhashed fields (actor, metadata, sensitivity) never changes the
verification result at all (part 3). -/
theorem c3_amended_tamper_detection :
    (∀ (t : AuditTrail) (now : String) (i : Nat) (e : AuditEntry),
      t.audit_log.get? i = some e →
      e.chain_hash ≠ some (expectedHash t.audit_log i e) →
      issueOf e ∈ (verify_integrity t now).issues) ∧
    (∀ (calls : List LogCall) (i : Nat) (e e' : AuditEntry) (now : String),
      (buildTrail calls).audit_log.get? i = some e →
      e'.chain_hash = e.chain_hash →
      (e'.event_id, e'.timestamp, e'.event_type, e'.description) ≠
        (e.event_id, e.timestamp, e.event_type, e.description) →
      issueOf e' ∈
        (verify_integrity (setEntry (buildTrail calls) i e') now).issues) ∧
    (∀ (t : AuditTrail) (now : String) (i : Nat) (e e' : AuditEntry),
      t.audit_log.get? i = some e →
      e'.event_id = e.event_id → e'.timestamp = e.timestamp →
      e'.event_type = e.event_type → e'.description = e.description →
      e'.chain_hash = e.chain_hash →
      verify_integrity (setEntry t i e') now = verify_integrity t now) := by
  refine ⟨?_, ?_, ?_⟩
  · intro t now i e hget hmis
    rw [verify_integrity_eq]
    exact mem_issuesFrom t.audit_log t.audit_log 0 i e hget (by rwa [Nat.zero_add])
  · intro calls i e e' now h1 h2 h3
    exact setEntry_flagged calls i e e' now h1 h2 h3
  · intro t now i e e' h1 h2 h3 h4 h5 h6
    exact setEntry_unhashed_invisible t i e e' now h1 h2 h3 h4 h5 h6


/-- C3 witness: the amended theorem applied at concrete inputs — the
already-mismatching second entry of a two-event log is reported; a
description-tampered genesis entry is flagged; an actor-only tampering
leaves the verification result unchanged. -/
theorem c3_amended_tamper_detection_witness :
    issueOf { event_id := "id1", timestamp := "t1",
              event_type := "kernel_operation", description := "op",
              actor := "orion", metadata := [], sensitivity := "public",
              chain_hash := some (.sha256Absent "id1" "t1"
                "kernel_operation" "op") } ∈
      (verify_integrity (buildTrail
        [{ event_id := "id0", timestamp := "t0", event_type := .SYSTEM_INIT,
           description := "boot", actor := "orion", metadata := none,
           sensitivity := "public" },
         { event_id := "id1", timestamp := "t1",
           event_type := .KERNEL_OPERATION, description := "op",
           actor := "orion", metadata := none,
           sensitivity := "public" }]) "now").issues ∧
    issueOf { event_id := "id0", timestamp := "t0",
              event_type := "system_initialization",
              description := "tampered", actor := "orion", metadata := [],
              sensitivity := "public",
              chain_hash := some (.sha256Absent "id0" "t0"
                "system_initialization" "boot") } ∈
      (verify_integrity (setEntry (buildTrail
        [{ event_id := "id0", timestamp := "t0", event_type := .SYSTEM_INIT,
           description := "boot", actor := "orion", metadata := none,
           sensitivity := "public" }]) 0
        { event_id := "id0", timestamp := "t0",
          event_type := "system_initialization", description := "tampered",
          actor := "orion", metadata := [], sensitivity := "public",
          chain_hash := some (.sha256Absent "id0" "t0"
            "system_initialization" "boot") }) "now").issues ∧
    verify_integrity (setEntry (buildTrail
        [{ event_id := "id0", timestamp := "t0", event_type := .SYSTEM_INIT,
           description := "boot", actor := "orion", metadata := none,
           sensitivity := "public" }]) 0
      { event_id := "id0", timestamp := "t0",
        event_type := "system_initialization", description := "boot",
        actor := "auditor", metadata := [("k", "v")], sensitivity := "secret",
        chain_hash := some (.sha256Absent "id0" "t0"
          "system_initialization" "boot") }) "now" =
      verify_integrity (buildTrail
        [{ event_id := "id0", timestamp := "t0", event_type := .SYSTEM_INIT,
           description := "boot", actor := "orion", metadata := none,
           sensitivity := "public" }]) "now" :=
  ⟨c3_amended_tamper_detection.1 _ "now" 1 _ (by decide) (by decide),
   c3_amended_tamper_detection.2.1 _ 0
     { event_id := "id0", timestamp := "t0",
       event_type := "system_initialization", description := "boot",
       actor := "orion", metadata := [], sensitivity := "public",
       chain_hash := some (.sha256Absent "id0" "t0"
         "system_initialization" "boot") } _ "now"
     (by decide) (by decide) (by decide),
   c3_amended_tamper_detection.2.2 _ "now" 0
     { event_id := "id0", timestamp := "t0",
       event_type := "system_initialization", description := "boot",
       actor := "orion", metadata := [], sensitivity := "public",
       chain_hash := some (.sha256Absent "id0" "t0"
         "system_initialization" "boot") } _
     (by decide) (by decide) (by decide) (by decide) (by decide) (by decide)⟩

/-- C4 counterexample: the claim says `verify_chain` independently
re-derives the digest of every entry from the entry's content and the
previous hash, rather than only comparing stored hash fields. Here are
two concrete exports with identical stored `hash` / `previous_hash`
fields in which entry 2's content (`event_type`) differs — the second is
a content-tampered copy of the first with stale hashes — and
`verify_chain` returns the overall verdict `True` on BOTH, which is
impossible for a verifier that recomputes digests from content. -/
theorem c4_verifier_ignores_entry_content :
    (verify_chain
      { chain_id := "orion-1", genesis_timestamp := "t0",
        entries :=
          [{ entry_id := "e1", timestamp := "t1", event_type := "boot",
             hash := "h0", previous_hash := "" },
           { entry_id := "e2", timestamp := "t2", event_type := "op",
             hash := "h1", previous_hash := "h0" }],
        chain_status := { active := true, verified := true,
                          public := true } }).2 = true ∧
    (verify_chain
      { chain_id := "orion-1", genesis_timestamp := "t0",
        entries :=
          [{ entry_id := "e1", timestamp := "t1", event_type := "boot",
             hash := "h0", previous_hash := "" },
           { entry_id := "e2", timestamp := "t2", event_type := "TAMPERED",
             hash := "h1", previous_hash := "h0" }],
        chain_status := { active := true, verified := true,
                          public := true } }).2 = true ∧
    ("op" : String) ≠ "TAMPERED" := by
  refine ⟨?_, ?_, ?_⟩ <;> decide

/-- C4 (amended): the standalone verifier checks only chain LINKAGE: it
emits one pass/fail result per entry, and its overall verdict is `True`
exactly when every non-genesis entry's stored `previous_hash` equals the
stored `hash` of its predecessor. It never recomputes a digest from an
entry's content (its module docstring defers cryptographic hash
computation to production implementations). -/
theorem c4_amended_verifier_checks_linkage_only (log : VerifierAuditLog) :
    ((verify_chain log).1.length = log.entries.length) ∧
    (((verify_chain log).2 = true) ↔ specChainLinked log.entries) :=
  ⟨verify_chain_results_length log, verify_chain_verdict log⟩

/-- C5: the genesis entry verifies successfully under a consistent
"absent previous hash" convention. Part 1: the writer stores the genesis
entry of a built log with a digest whose `prev_hash` key is absent
(`sha256Absent`). Part 2: that stored hash equals exactly what
`verify_integrity` recomputes for index 0, so genesis always passes the
in-store check. Part 3: the hash `verify_integrity` expects at index 0 is
the prev-key-omitted digest for ANY entry. Part 4: the absent-key digest
differs from every digest carrying a present `prev_hash` key — whether a
null or any hash value — so "absent" is not an empty or zero placeholder.
Part 5: the standalone verifier's first per-entry result is always a
pass ("Genesis block"). -/
theorem c5_genesis_absent_prev_convention :
    (∀ (c : LogCall) (cs : List LogCall),
      (buildTrail (c :: cs)).audit_log.get? 0 = some (callEntry c)) ∧
    (∀ (c : LogCall) (cs : List LogCall),
      (callEntry c).chain_hash =
        some (expectedHash (buildTrail (c :: cs)).audit_log 0 (callEntry c))) ∧
    (∀ (log : List AuditEntry) (e : AuditEntry),
      expectedHash log 0 e =
        mkHash e.event_id e.timestamp e.event_type e.description none) ∧
    (∀ a b c d : String, (∀ x : HashVal,
        HashVal.sha256Absent a b c d ≠ HashVal.sha256Prev a b c d x) ∧
      HashVal.sha256Absent a b c d ≠ HashVal.sha256Null a b c d) ∧
    (∀ (log : VerifierAuditLog) (e0 : VerifierEntry)
        (rest : List VerifierEntry),
      log.entries = e0 :: rest → (verify_chain log).1.head? = some true) := by
  refine ⟨?_, ?_, ?_, ?_, ?_⟩
  · intro c cs
    rw [buildTrail_audit_log, List.map_cons, List.get?_cons_zero]
  · intro c cs
    rfl
  · intro log e
    rfl
  · intro a b c d
    exact ⟨fun x h => HashVal.noConfusion h, fun h => HashVal.noConfusion h⟩
  · exact verify_chain_genesis_passes

/-- C5 witness: the convention instantiated on a concrete one-call trail
and a concrete two-entry export. -/
theorem c5_genesis_absent_prev_convention_witness :
    (buildTrail
      [{ event_id := "id0", timestamp := "t0", event_type := .SYSTEM_INIT,
         description := "boot", actor := "orion", metadata := none,
         sensitivity := "public" }]).audit_log.get? 0 =
      some (callEntry
        { event_id := "id0", timestamp := "t0", event_type := .SYSTEM_INIT,
          description := "boot", actor := "orion", metadata := none,
          sensitivity := "public" }) ∧
    HashVal.sha256Absent "a" "b" "c" "d" ≠
      HashVal.sha256Prev "a" "b" "c" "d" (.sha256Absent "a" "b" "c" "d") ∧
    (verify_chain
      { chain_id := "orion-1", genesis_timestamp := "t0",
        entries :=
          [{ entry_id := "e1", timestamp := "t1", event_type := "boot",
             hash := "h0", previous_hash := "" },
           { entry_id := "e2", timestamp := "t2", event_type := "op",
             hash := "h1", previous_hash := "h0" }],
        chain_status := { active := true, verified := true,
                          public := true } }).1.head? = some true :=
  ⟨c5_genesis_absent_prev_convention.1 _ [],
   (c5_genesis_absent_prev_convention.2.2.2.1 "a" "b" "c" "d").1 _,
   c5_genesis_absent_prev_convention.2.2.2.2 _ _ _ rfl⟩

/-- C6: every event in the public export corresponds to an underlying
log entry whose `sensitivity` is exactly "public", and the exported
record is precisely the five-field projection (event_id, timestamp,
event_type, description, actor) — the `PublicEvent` type has no
`metadata` or `chain_hash` field at all. -/
theorem c6_export_public_only_projection (t : AuditTrail) (now : String)
    (p : PublicEvent) (hp : p ∈ (export_public_audit_data t now).events) :
    ∃ e : AuditEntry, e ∈ t.audit_log ∧ e.sensitivity = "public" ∧
      p = publicProjection e := by
  unfold export_public_audit_data at hp
  simp only [List.mem_map, List.mem_filter] at hp
  obtain ⟨e, ⟨hmem, hsens⟩, hproj⟩ := hp
  exact ⟨e, hmem, by simpa using hsens, hproj.symm⟩

/-- C6 witness: the projection property at a concrete two-entry trail
whose export contains exactly the public entry. -/
theorem c6_export_public_only_projection_witness :
    ∃ e : AuditEntry,
      e ∈ (buildTrail
        [{ event_id := "id0", timestamp := "t0", event_type := .SYSTEM_INIT,
           description := "boot", actor := "orion", metadata := none,
           sensitivity := "public" },
         { event_id := "id1", timestamp := "t1",
           event_type := .KERNEL_OPERATION, description := "op",
           actor := "orion", metadata := none,
           sensitivity := "internal" }]).audit_log ∧
      e.sensitivity = "public" ∧
      ({ event_id := "id0", timestamp := "t0",
         event_type := "system_initialization", description := "boot",
         actor := "orion" } : PublicEvent) = publicProjection e :=
  c6_export_public_only_projection _ "now" _ (by decide)

/-- Bridging lemma: on entries whose every key is present, the raw entry
loop succeeds and returns exactly the per-entry link checks of
`verify_chain`. -/
theorem verifyEntriesRun_toRaw (entries : List VerifierEntry) :
    ∀ (l : List VerifierEntry) (i : Nat),
      verifyEntriesRun (entries.map toRawEntry) i (l.map toRawEntry) =
        .ok ((List.enumFrom i l).map fun ie =>
          verifyChainLink entries ie.1 ie.2)
  | [], _ => rfl
  | e :: rest, i => by
    rw [List.map_cons,
      show List.enumFrom i (e :: rest) = (i, e) :: List.enumFrom (i + 1) rest
        from rfl, List.map_cons]
    have hmap : ∀ j, (entries.map toRawEntry).get? j =
        (entries.get? j).map toRawEntry := by
      intro j
      rw [List.get?_eq_getElem?, List.get?_eq_getElem?, List.getElem?_map]
    unfold verifyEntriesRun
    simp only [toRawEntry]
    by_cases hi : i > 0
    · rw [if_pos hi, hmap]
      cases hp : entries.get? (i - 1) with
      | none =>
        simp only [Option.map_none']
        rw [verifyEntriesRun_toRaw entries rest (i + 1)]
        have hlink : verifyChainLink entries i e = true := by
          unfold verifyChainLink
          rw [if_pos hi, hp]
        simp only [hlink]
      | some p =>
        simp only [Option.map_some', toRawEntry]
        rw [verifyEntriesRun_toRaw entries rest (i + 1)]
        have hlink : verifyChainLink entries i e =
            (e.previous_hash == p.hash) := by
          unfold verifyChainLink
          rw [if_pos hi, hp]
        simp only [hlink]
    · rw [if_neg hi]
      rw [verifyEntriesRun_toRaw entries rest (i + 1)]
      have hlink : verifyChainLink entries i e = true := by
        unfold verifyChainLink
        rw [if_neg hi]
      simp only [hlink]

/-- Bridging lemma: on a fully well-formed export the raw pipeline
raises nothing and returns exactly `verify_chain`'s result. -/
theorem verify_chain_run_toRaw (log : VerifierAuditLog) :
    verify_chain_run (toRawLog log) = .ok (verify_chain log) := by
  unfold verify_chain_run toRawLog verify_chain
  simp only []
  rw [verifyEntriesRun_toRaw log.entries log.entries 0]
  rfl

/-- C7 counterexample: the claim says the verifier CLI exits non-zero
when any link fails. In the source the `__main__` block discards the
return value of `verify_chain()`, so with a hard-coded `audit-log.json`
containing a broken link the script still exits 0 even though the
verdict is `False`; the claim also says the CLI takes a file path, while
the argument vector is never consulted. -/
theorem c7_broken_link_still_exits_zero :
    mainExitCode
      (fun p => if p = "audit-log.json" then
        .ok (toRawLog
          { chain_id := "orion-1", genesis_timestamp := "t0",
            entries :=
              [{ entry_id := "e1", timestamp := "t1", event_type := "boot",
                 hash := "h0", previous_hash := "" },
               { entry_id := "e2", timestamp := "t2", event_type := "op",
                 hash := "h1", previous_hash := "WRONG" }],
            chain_status := { active := true, verified := true,
                              public := true } })
        else .fileNotFound) ["other-log.json"] = 0 ∧
    (verify_chain
      { chain_id := "orion-1", genesis_timestamp := "t0",
        entries :=
          [{ entry_id := "e1", timestamp := "t1", event_type := "boot",
             hash := "h0", previous_hash := "" },
           { entry_id := "e2", timestamp := "t2", event_type := "op",
             hash := "h1", previous_hash := "WRONG" }],
        chain_status := { active := true, verified := true,
                          public := true } }).2 = false := by
  refine ⟨?_, ?_⟩ <;> decide

/-- C7 (amended): the script ignores its command-line arguments and
always reads the hard-coded path "audit-log.json". It exits 0 exactly
when loading succeeds (file present, valid JSON, `audit_log` key) AND
every dict subscript `verify_chain` performs succeeds (`entries`,
`chain_id`, `genesis_timestamp`, the per-entry keys, `chain_status` and
its flags) — REGARDLESS of the verification verdict, which is discarded.
It exits non-zero (uncaught exception) when loading fails or any of
those inner subscripts raises `KeyError`. -/
theorem c7_amended_exit_code_behavior (fs : String → LoadOutcome)
    (argv argv' : List String) :
    (mainExitCode fs argv = mainExitCode fs argv') ∧
    (∀ (raw : RawVerifierAuditLog) (r : List Bool × Bool),
      fs "audit-log.json" = .ok raw → verify_chain_run raw = .ok r →
      mainExitCode fs argv = 0) ∧
    (∀ (raw : RawVerifierAuditLog) (msg : String),
      fs "audit-log.json" = .ok raw → verify_chain_run raw = .error msg →
      mainExitCode fs argv ≠ 0) ∧
    ((fs "audit-log.json" = .fileNotFound ∨
      fs "audit-log.json" = .invalidJson ∨
      fs "audit-log.json" = .missingAuditLogKey) →
      mainExitCode fs argv ≠ 0) := by
  refine ⟨rfl, ?_, ?_, ?_⟩
  · intro raw r hok hrun
    unfold mainExitCode load_audit_log
    rw [hok]
    simp only [hrun]
  · intro raw msg hok hrun
    unfold mainExitCode load_audit_log
    rw [hok]
    simp only [hrun]
    exact Nat.one_ne_zero
  · intro herr
    unfold mainExitCode load_audit_log
    rcases herr with h | h | h <;> rw [h] <;> exact Nat.one_ne_zero

/-- C7 witness: the amended exit-code behavior at concrete inputs — a
loadable export with a FAILING link exits 0 with the arguments
irrelevant; a loadable file whose `audit_log` object is empty (all inner
keys missing, the `KeyError` path) exits non-zero; a missing file exits
non-zero. -/
theorem c7_amended_exit_code_behavior_witness :
    (mainExitCode
      (fun p => if p = "audit-log.json" then
        .ok (toRawLog
          { chain_id := "orion-1", genesis_timestamp := "t0",
            entries :=
              [{ entry_id := "e1", timestamp := "t1", event_type := "boot",
                 hash := "h0", previous_hash := "" },
               { entry_id := "e2", timestamp := "t2", event_type := "op",
                 hash := "h1", previous_hash := "WRONG" }],
            chain_status := { active := true, verified := true,
                              public := true } })
        else .fileNotFound) ["x.json"] =
     mainExitCode
      (fun p => if p = "audit-log.json" then
        .ok (toRawLog
          { chain_id := "orion-1", genesis_timestamp := "t0",
            entries :=
              [{ entry_id := "e1", timestamp := "t1", event_type := "boot",
                 hash := "h0", previous_hash := "" },
               { entry_id := "e2", timestamp := "t2", event_type := "op",
                 hash := "h1", previous_hash := "WRONG" }],
            chain_status := { active := true, verified := true,
                              public := true } })
        else .fileNotFound) ["y.json"]) ∧
    mainExitCode
      (fun p => if p = "audit-log.json" then
        .ok (toRawLog
          { chain_id := "orion-1", genesis_timestamp := "t0",
            entries :=
              [{ entry_id := "e1", timestamp := "t1", event_type := "boot",
                 hash := "h0", previous_hash := "" },
               { entry_id := "e2", timestamp := "t2", event_type := "op",
                 hash := "h1", previous_hash := "WRONG" }],
            chain_status := { active := true, verified := true,
                              public := true } })
        else .fileNotFound) ["x.json"] = 0 ∧
    mainExitCode
      (fun p => if p = "audit-log.json" then
        .ok { chain_id := none, genesis_timestamp := none,
              entries := none, chain_status := none }
        else .fileNotFound) ["x.json"] ≠ 0 ∧
    mainExitCode (fun _ => .fileNotFound) ["x.json"] ≠ 0 :=
  ⟨(c7_amended_exit_code_behavior _ ["x.json"] ["y.json"]).1,
   (c7_amended_exit_code_behavior _ ["x.json"] ["y.json"]).2.1
     (toRawLog
       { chain_id := "orion-1", genesis_timestamp := "t0",
         entries :=
           [{ entry_id := "e1", timestamp := "t1", event_type := "boot",
              hash := "h0", previous_hash := "" },
            { entry_id := "e2", timestamp := "t2", event_type := "op",
              hash := "h1", previous_hash := "WRONG" }],
         chain_status := { active := true, verified := true,
                           public := true } })
     ([true, false], false) (by decide) rfl,
   (c7_amended_exit_code_behavior _ ["x.json"] ["x.json"]).2.2.1
     { chain_id := none, genesis_timestamp := none,
       entries := none, chain_status := none }
     "KeyError: entries" (by decide) rfl,
   (c7_amended_exit_code_behavior (fun _ => .fileNotFound) ["x.json"]
     ["x.json"]).2.2.2 (Or.inl rfl)⟩

/-- C8 counterexample: the claim says a filters dict with an unknown key
yields an EMPTY result for that constraint rather than ignoring the key.
On a one-event log, querying with the unknown filter key "foo" returns
the full log (one entry), i.e. the unknown key is silently ignored. -/
theorem c8_unknown_filter_key_returns_full_log :
    query_events (buildTrail
      [{ event_id := "id0", timestamp := "t0", event_type := .SYSTEM_INIT,
         description := "boot", actor := "orion", metadata := none,
         sensitivity := "public" }]) (some [("foo", "bar")]) none none =
      (buildTrail
        [{ event_id := "id0", timestamp := "t0", event_type := .SYSTEM_INIT,
           description := "boot", actor := "orion", metadata := none,
           sensitivity := "public" }]).audit_log ∧
    (query_events (buildTrail
      [{ event_id := "id0", timestamp := "t0", event_type := .SYSTEM_INIT,
         description := "boot", actor := "orion", metadata := none,
         sensitivity := "public" }]) (some [("foo", "bar")]) none
        none).length = 1 := by
  refine ⟨?_, ?_⟩ <;> decide

/-- C8 (amended): `query_events` silently IGNORES unknown filter keys:
a filters dict containing none of the three recognised keys
(`event_type`, `actor`, `sensitivity`) behaves exactly as if no filters
had been supplied — no error is raised and no constraint is applied. -/
theorem c8_amended_unknown_filter_keys_ignored (t : AuditTrail)
    (fs : List (String × String)) (st et : Option String)
    (h1 : fs.lookup "event_type" = none) (h2 : fs.lookup "actor" = none)
    (h3 : fs.lookup "sensitivity" = none) :
    query_events t (some fs) st et = query_events t none st et := by
  unfold query_events
  simp only [h1, h2, h3]

/-- C8 witness: the amended behavior at a concrete one-event log and the
unknown filter key "foo". -/
theorem c8_amended_unknown_filter_keys_ignored_witness :
    query_events (buildTrail
      [{ event_id := "id0", timestamp := "t0", event_type := .SYSTEM_INIT,
         description := "boot", actor := "orion", metadata := none,
         sensitivity := "public" }]) (some [("foo", "bar")]) none none =
      query_events (buildTrail
        [{ event_id := "id0", timestamp := "t0", event_type := .SYSTEM_INIT,
           description := "boot", actor := "orion", metadata := none,
           sensitivity := "public" }]) none none none :=
  c8_amended_unknown_filter_keys_ignored _ [("foo", "bar")] none none
    (by decide) (by decide) (by decide)

/-- C9 counterexample: the claim says the `end_time` bound is an
inclusive comparison on `timestamp`. But the source guards it with
`if end_time:`, and the empty string is falsy in Python, so an
`end_time` of `""` is silently SKIPPED: on a one-event log (timestamp
"t0") the query returns the full log, while the claimed inclusive
comparison (`timestamp <= ""`) would keep nothing. -/
theorem c9_empty_end_time_bound_not_inclusive :
    query_events (buildTrail
      [{ event_id := "id0", timestamp := "t0", event_type := .SYSTEM_INIT,
         description := "boot", actor := "orion", metadata := none,
         sensitivity := "public" }]) none none (some "") =
      (buildTrail
        [{ event_id := "id0", timestamp := "t0", event_type := .SYSTEM_INIT,
           description := "boot", actor := "orion", metadata := none,
           sensitivity := "public" }]).audit_log ∧
    (buildTrail
      [{ event_id := "id0", timestamp := "t0", event_type := .SYSTEM_INIT,
         description := "boot", actor := "orion", metadata := none,
         sensitivity := "public" }]).audit_log.filter
        (specQueryMatch none none (some "")) = [] ∧
    (buildTrail
      [{ event_id := "id0", timestamp := "t0", event_type := .SYSTEM_INIT,
         description := "boot", actor := "orion", metadata := none,
         sensitivity := "public" }]).audit_log.length = 1 := by
  refine ⟨by decide, ?_, by decide⟩
  have hlog : (buildTrail
      [{ event_id := "id0", timestamp := "t0", event_type := .SYSTEM_INIT,
         description := "boot", actor := "orion", metadata := none,
         sensitivity := "public" }]).audit_log =
      [callEntry
        { event_id := "id0", timestamp := "t0", event_type := .SYSTEM_INIT,
          description := "boot", actor := "orion", metadata := none,
          sensitivity := "public" }] := by decide
  rw [hlog]
  simp [specQueryMatch, callEntry]
  exact List.nil_lt_cons _ _

/-- C9 (amended): query semantics. With no filters and no time bounds
the full log is returned in append order (first conjunct, definitional).
In general the result is exactly the append-ordered sublist of entries
matching `specQueryMatchPy` — exact match on each supplied filter field
(`event_type`, `actor`, `sensitivity`), omitted fields unconstrained,
and `start_time`/`end_time` inclusive comparisons on `timestamp` EXCEPT
that an empty-string bound is falsy in Python and therefore treated as
absent (second conjunct) — so order is always preserved and a no-match
query yields `[]`, never an error. For every non-empty-string bound the
spec's unqualified inclusive-bound reading holds verbatim (third
conjunct). -/
theorem c9_amended_query_semantics :
    (∀ t : AuditTrail, query_events t none none none = t.audit_log) ∧
    (∀ (t : AuditTrail) (fs : Option (List (String × String)))
        (st et : Option String),
      query_events t fs st et =
        t.audit_log.filter (specQueryMatchPy fs st et)) ∧
    (∀ (t : AuditTrail) (fs : Option (List (String × String)))
        (st et : Option String),
      st ≠ some "" → et ≠ some "" →
      query_events t fs st et =
        t.audit_log.filter (specQueryMatch fs st et)) := by
  refine ⟨fun _ => rfl, query_events_eq_filter, ?_⟩
  intro t fs st et hst het
  rw [query_events_eq_filter]
  exact List.filter_congr fun a _ => specQueryMatchPy_eq_spec fs st et hst het a

/-- C9 witness: the amended semantics at a concrete one-event log with a
supplied event-type filter and non-empty inclusive time bounds. -/
theorem c9_amended_query_semantics_witness :
    (some "t0" : Option String) ≠ some "" ∧
    (some "t9" : Option String) ≠ some "" ∧
    query_events (buildTrail
      [{ event_id := "id0", timestamp := "t0", event_type := .SYSTEM_INIT,
         description := "boot", actor := "orion", metadata := none,
         sensitivity := "public" }])
      (some [("event_type", "system_initialization")]) (some "t0")
      (some "t9") =
      (buildTrail
        [{ event_id := "id0", timestamp := "t0", event_type := .SYSTEM_INIT,
           description := "boot", actor := "orion", metadata := none,
           sensitivity := "public" }]).audit_log.filter
        (specQueryMatch (some [("event_type", "system_initialization")])
          (some "t0") (some "t9")) :=
  ⟨by decide, by decide,
   c9_amended_query_semantics.2.2 _ (some [("event_type",
     "system_initialization")]) (some "t0") (some "t9") (by decide)
     (by decide)⟩

/-- C10: `get_statistics` is total on every state whose log is empty —
the first/last indexing is guarded — and returns zero counts, an empty
type-count dict and `None` for both the oldest and newest event. -/
theorem c10_statistics_total_on_empty_log (t : AuditTrail)
    (h : t.audit_log = []) :
    get_statistics t =
      { total_events := 0, event_types := [], public_events := 0,
        chain_length := t.chain_integrity.length, oldest_event := none,
        newest_event := none } := by
  unfold get_statistics
  rw [h]
  rfl

/-- C10 witness: the statistics of a freshly constructed trail. -/
theorem c10_statistics_total_on_empty_log_witness :
    get_statistics AuditTrail.init =
      { total_events := 0, event_types := [], public_events := 0,
        chain_length := AuditTrail.init.chain_integrity.length,
        oldest_event := none, newest_event := none } :=
  c10_statistics_total_on_empty_log AuditTrail.init rfl
